import Mathlib

/-!
Shallow embedding of the tookey-io/web3-sdk client (src/web3.ts, src/utils.ts,
src/types/*) together with the documented semantics of its HTTP-client
collaborator (axios): request/response interceptors, the session manager
(authWithDiscord, refreshToken, logout, fetchUser, useCredentials), the
out-of-band message handler of createWallet/signTransaction, and the getPath
query-string builder.
-/

/-- A JavaScript runtime value, as far as this client manipulates them:
`undefined`, `null`, strings, integer numbers, booleans and plain objects
(assoc lists of fields, unique keys, insertion order). -/
inductive JVal where
  | jundefined
  | jnull
  | jstr (s : String)
  | jnum (n : Int)
  | jbool (b : Bool)
  | jobj (fields : List (String × JVal))

/-- JavaScript truthiness, used by `if (x)` / `!!x` in the source. -/
def JVal.truthy : JVal → Bool
  | .jundefined => false
  | .jnull => false
  | .jstr s => s ≠ ""
  | .jnum n => n ≠ 0
  | .jbool b => b
  | .jobj _ => true

/-- JavaScript string coercion, as in a template literal. -/
def JVal.jsToString : JVal → String
  | .jundefined => "undefined"
  | .jnull => "null"
  | .jstr s => s
  | .jnum n => toString n
  | .jbool b => cond b "true" "false"
  | .jobj _ => "[object Object]"

/-- Is this value a string (`typeof value === 'string'`)? -/
def JVal.isString : JVal → Bool
  | .jstr _ => true
  | _ => false

/-- An exception value of the JavaScript runtime: a `TypeError` raised by a
property access on `undefined`/`null`, an `Error` with a message thrown by the
source, or exhaustion of the fuel that bounds the embedded recursion. -/
inductive JsError where
  | typeError
  | errMsg (msg : String)
  | fuelExhausted
deriving DecidableEq, Repr

/-- JavaScript property access `v[k]`: throws a `TypeError` on
`undefined`/`null`, returns the field (or `undefined`) on an object, and
`undefined` on other primitives. -/
def JVal.get (v : JVal) (k : String) : Except JsError JVal :=
  match v with
  | .jundefined => .error .typeError
  | .jnull => .error .typeError
  | .jobj fields =>
      .ok (match fields.lookup k with
           | some x => x
           | none => .jundefined)
  | _ => .ok .jundefined

/-- An outgoing HTTP request (method, url, headers, body). -/
structure Request where
  method : String
  url : String
  headers : List (String × String)
  body : JVal

/-- An HTTP response object (status and parsed body). -/
structure Response where
  status : Nat
  data : JVal

/-- The axios error object handed to the response rejection interceptor:
`error.response` is present for an HTTP error status and absent for a network
error; `error.config` is the (already interceptor-processed) request config. -/
structure AxiosErr where
  response : Option Response
  config : Request

/-- One scripted reply of the remote server: a 2xx success with a body, an
HTTP error status with a body, or a network failure. -/
inductive Reply where
  | success (d : JVal)
  | httpError (status : Nat) (d : JVal)
  | networkError

/-- The raw transport result of dispatching one request, before response
interceptors run: a fulfilled response or a rejection carrying an error. -/
inductive DispatchResult where
  | fulfilled (r : Response)
  | rejected (e : AxiosErr)

/-- The value with which a request promise of this client finally fulfils:
either a real response object, or the axios error object itself (the source's
response interceptor returns the error from its rejection handler, which
fulfils the promise with it). -/
inductive Outcome where
  | resp (r : Response)
  | errObj (e : AxiosErr)

/-- Property access `outcome.data`: a response has its body there; the axios
error object has no `data` field, so the access yields `undefined`. -/
def Outcome.dataField : Outcome → JVal
  | .resp r => r.data
  | .errObj _ => .jundefined

/-- The whole state of one `TookeyWeb3` instance together with its
environment: the server script (reply for the n-th dispatched request), the
trace of requests actually dispatched, the axios request-interceptor slots
(each slot holds the access token captured by the closure installed by
`useCredentials`, or `none` after `eject`), the handlers registered on the
`logout` event (each ejects its captured interceptor id), the `_user` and
`userRefreshToken` fields, and the trace of emitted events. -/
structure Web3State where
  script : Nat → Reply
  trace : List Request
  interceptors : List (Option JVal)
  logoutHandlers : List Nat
  user : JVal
  userRefreshToken : JVal
  events : List (String × JVal)

/-- `AxiosHeaders.set(k, v)`: replaces an existing header with that name, or
appends it. -/
def setHeader (hs : List (String × String)) (k v : String) : List (String × String) :=
  if hs.any (fun kv => kv.1 = k) then
    hs.map (fun kv => if kv.1 = k then (k, v) else kv)
  else hs ++ [(k, v)]

/-- The request interceptor installed by `useCredentials`:
`if (accessToken) config.headers.set('Authorization', `Bearer ...`)`. -/
def runAccessTokenInterceptor (accessToken : JVal) (req : Request) : Request :=
  if accessToken.truthy then
    { req with headers := setHeader req.headers "Authorization" ("Bearer " ++ accessToken.jsToString) }
  else req

/-- Run the registered request interceptors on a config. axios executes
request interceptors in reverse registration order (its dispatch loop
`unshift`s each registered interceptor onto the chain), and skips ejected
slots. -/
def applyReqInterceptors (ints : List (Option JVal)) (req : Request) : Request :=
  ints.reverse.foldl
    (fun r oi =>
      match oi with
      | none => r
      | some tok => runAccessTokenInterceptor tok r)
    req

/-- Dispatch one request over the transport: the n-th dispatch receives the
n-th scripted reply; a non-2xx status or a network failure rejects with an
axios error object. -/
def dispatch (s : Web3State) (req : Request) : Web3State × DispatchResult :=
  let n := s.trace.length
  let s1 := { s with trace := s.trace ++ [req] }
  match s.script n with
  | .success d => (s1, .fulfilled ⟨200, d⟩)
  | .httpError st d => (s1, .rejected ⟨some ⟨st, d⟩, req⟩)
  | .networkError => (s1, .rejected ⟨none, req⟩)

/-- `useCredentials({ accessToken })`: registers a new request interceptor
capturing the token (its id is its slot index) and subscribes a `logout`
handler that ejects exactly that id. Nothing removes or supersedes
previously registered interceptors here. -/
def useCredentials (s : Web3State) (accessToken : JVal) : Web3State :=
  let interceptorId := s.interceptors.length
  { s with
      interceptors := s.interceptors ++ [some accessToken],
      logoutHandlers := s.logoutHandlers ++ [interceptorId] }

/-- Run the `logout` handlers registered by `useCredentials`: each ejects its
captured interceptor id (axios `eject` nulls the slot). -/
def ejectHandlers (handlers : List Nat) (ints : List (Option JVal)) : List (Option JVal) :=
  handlers.foldl (fun acc i => acc.set i none) ints

/-- Modelled from the spec: the event bus (`src/events/emitter`, imported by
web3.ts but not among the sources) is a minimal typed publish/subscribe
mechanism; publishing an event makes it observable to every subscriber of
that kind and runs the internally registered handlers. Here `emitEvent`
appends the event to the observable trace and runs the interceptor-ejecting
handlers that the client itself registered on `logout`. -/
def emitEvent (s : Web3State) (ev : String) (payload : JVal) : Web3State :=
  let s1 := { s with events := s.events ++ [(ev, payload)] }
  if ev = "logout" then
    { s1 with interceptors := ejectHandlers s1.logoutHandlers s1.interceptors }
  else s1

/-- `isLoggedIn`: `!!this.user && !!this.userRefreshToken`. -/
def isLoggedIn (s : Web3State) : Bool :=
  s.user.truthy && s.userRefreshToken.truthy

/-- `error.response && error.response.status === 401`. -/
def is401 (e : AxiosErr) : Bool :=
  match e.response with
  | some r => r.status == 401
  | none => false

/-- A POST request config. -/
def mkPost (url : String) (headers : List (String × String)) (body : JVal) : Request :=
  ⟨"post", url, headers, body⟩

/-- A GET request config. -/
def mkGet (url : String) : Request :=
  ⟨"get", url, [], .jundefined⟩

/-- `fetchUser()`, parameterised by the client request function:
`const { data: user } = await this._client.get('/api/users/me');
this.user = user; return user;`. Note the destructure reads `.data` off
whatever value the promise fulfilled with. -/
def fetchUserWith (cr : Web3State → Request → Web3State × Except JsError Outcome)
    (s : Web3State) : Web3State × Except JsError JVal :=
  match cr s (mkGet "/api/users/me") with
  | (s1, .error e) => (s1, .error e)
  | (s1, .ok out) =>
      let user := out.dataField
      ({ s1 with user := user }, .ok user)

/-- The `try` body of `refreshToken()`, parameterised by the client request
function: guard on a missing refresh token (throws 'Refresh token not
found'), POST `/api/auth/refresh` with the refresh bearer header, read
`response.data.token`, install the new credentials, re-fetch the user, and
return `response.data`. -/
def refreshTokenBodyWith (cr : Web3State → Request → Web3State × Except JsError Outcome)
    (s : Web3State) : Web3State × Except JsError JVal :=
  if s.userRefreshToken.truthy then
    match cr s (mkPost "/api/auth/refresh"
        [("Authorization", "Bearer " ++ s.userRefreshToken.jsToString)] .jundefined) with
    | (s1, .error e) => (s1, .error e)
    | (s1, .ok out) =>
        match out.dataField.get "token" with
        | .error e => (s1, .error e)
        | .ok accessToken =>
            let s2 := useCredentials s1 accessToken
            match fetchUserWith cr s2 with
            | (s3, .error e) => (s3, .error e)
            | (s3, .ok _) => (s3, .ok out.dataField)
  else (s, .error (.errMsg "Refresh token not found"))

/-- `refreshToken()` with its catch-all: any failure of the body — including
the internal missing-token throw — is replaced by `new Error('Refresh token
failed')`. -/
def refreshTokenWith (cr : Web3State → Request → Web3State × Except JsError Outcome)
    (s : Web3State) : Web3State × Except JsError JVal :=
  match refreshTokenBodyWith cr s with
  | (s1, .error _) => (s1, .error (.errMsg "Refresh token failed"))
  | (s1, .ok v) => (s1, .ok v)

/-- One client request through the axios pipeline, bounded by fuel: apply the
request interceptors, dispatch, and on rejection run the response
interceptor installed in the constructor — on a 401 with a stored refresh
token it tries `refreshToken()` then retries `error.config`, and on any
failure of that try-block (or on any other error) it *returns* the error
object, fulfilling the caller's promise with it. -/
def clientRequest : Nat → Web3State → Request → Web3State × Except JsError Outcome
  | 0, s, _ => (s, .error .fuelExhausted)
  | fuel + 1, s, req =>
      let req2 := applyReqInterceptors s.interceptors req
      match dispatch s req2 with
      | (s1, .fulfilled r) => (s1, .ok (.resp r))
      | (s1, .rejected e) =>
          if is401 e && s1.userRefreshToken.truthy then
            match refreshTokenWith (fun s' r' => clientRequest fuel s' r') s1 with
            | (s2, .error _) => (s2, .ok (.errObj e))
            | (s2, .ok _) =>
                match clientRequest fuel s2 e.config with
                | (s3, .error _) => (s3, .ok (.errObj e))
                | (s3, .ok out) => (s3, .ok out)
          else (s1, .ok (.errObj e))

/-- `refreshToken()` as a method of the client. -/
def refreshToken (fuel : Nat) (s : Web3State) : Web3State × Except JsError JVal :=
  refreshTokenWith (clientRequest fuel) s

/-- `fetchUser()` as a method of the client. -/
def fetchUser (fuel : Nat) (s : Web3State) : Web3State × Except JsError JVal :=
  fetchUserWith (clientRequest fuel) s

/-- `logout()`: POST `/api/auth/logout`; if the awaited call fulfils, clear
`_user` and `userRefreshToken` and emit `logout`; a rejection is caught and
rethrown as `new Error('Logout failed')`. -/
def logout (fuel : Nat) (s : Web3State) : Web3State × Except JsError Unit :=
  match clientRequest fuel s (mkPost "/api/auth/logout" [] .jundefined) with
  | (s1, .error _) => (s1, .error (.errMsg "Logout failed"))
  | (s1, .ok _) =>
      let s2 := { s1 with user := .jundefined, userRefreshToken := .jundefined }
      (emitEvent s2 "logout" .jnull, .ok ())

/-- `authWithDiscord(credentials)`: POST `/api/auth/discord`, read
`response.data.access.token`, store `response.data.refresh.token` as the
refresh token, install the access credentials, and return. No event is
emitted here. -/
def authWithDiscord (fuel : Nat) (s : Web3State) (credentials : JVal) :
    Web3State × Except JsError Unit :=
  match clientRequest fuel s (mkPost "/api/auth/discord" [] credentials) with
  | (s1, .error e) => (s1, .error e)
  | (s1, .ok out) =>
      match out.dataField.get "access" with
      | .error e => (s1, .error e)
      | .ok accessRecord =>
          match accessRecord.get "token" with
          | .error e => (s1, .error e)
          | .ok accessToken =>
              match out.dataField.get "refresh" with
              | .error e => (s1, .error e)
              | .ok refreshRecord =>
                  match refreshRecord.get "token" with
                  | .error e => (s1, .error e)
                  | .ok refreshTok =>
                      let s2 := { s1 with userRefreshToken := refreshTok }
                      (useCredentials s2 accessToken, .ok ())

/-- A cross-context message event delivered to the window listener:
`event.origin` and `event.data`. -/
structure MessageEvent where
  origin : String
  data : JVal

/-- The observable state of one pending out-of-band action: whether its
promise has been resolved and whether the popup was asked to close. -/
structure BrokerState where
  resolved : Bool
  popupClosed : Bool

/-- Strict equality `event.data === 'close'`. -/
def isCloseSignal : JVal → Bool
  | .jstr s => s = "close"
  | _ => false

/-- The message listener registered by `createWallet`/`signTransaction`:
`if (event.origin === this.baseURL) { if (popup && event.data === 'close')
popup.close(); resolve(); }`. `popupPresent` is whether `window.open`
returned a non-null handle. -/
def handleWalletMessage (baseURL : String) (popupPresent : Bool)
    (st : BrokerState) (ev : MessageEvent) : BrokerState :=
  if ev.origin = baseURL then
    let st1 :=
      if popupPresent && isCloseSignal ev.data then { st with popupClosed := true } else st
    { st1 with resolved := true }
  else st

/-- Uppercase hexadecimal digit of a number below 16. -/
def hexDigit (n : Nat) : Char :=
  if n < 10 then Char.ofNat (48 + n) else Char.ofNat (55 + n)

/-- Percent-encode one byte as `%XX`. -/
def encByte (b : Nat) : String :=
  "%" ++ String.singleton (hexDigit (b / 16)) ++ String.singleton (hexDigit (b % 16))

/-- The UTF-8 bytes of one character. -/
def utf8Bytes (c : Char) : List Nat :=
  let n := c.toNat
  if n < 128 then [n]
  else if n < 2048 then [192 + n / 64, 128 + n % 64]
  else if n < 65536 then [224 + n / 4096, 128 + (n / 64) % 64, 128 + n % 64]
  else [240 + n / 262144, 128 + (n / 4096) % 64, 128 + (n / 64) % 64, 128 + n % 64]

/-- Characters the `application/x-www-form-urlencoded` serializer leaves as
they are. -/
def isFormUnreserved (c : Char) : Bool :=
  c.isAlphanum || c = '*' || c = '-' || c = '.' || c = '_'

/-- `application/x-www-form-urlencoded` escaping of one string, as
`URLSearchParams.toString()` applies to each key and value: a space becomes
`+`, unreserved characters stay, everything else is percent-encoded per
UTF-8 byte. -/
def formEncode (s : String) : String :=
  s.data.foldl
    (fun acc c =>
      acc ++
        (if c = ' ' then "+"
         else if isFormUnreserved c then String.singleton c
         else String.join ((utf8Bytes c).map encByte)))
    ""

/-- The string an entry value contributes to the query (the filtered entries
are strings; `URLSearchParams` coerces anything else). -/
def paramStr : JVal → String
  | .jstr s => s
  | v => v.jsToString

/-- `new URLSearchParams(params).toString()` over the entries of `params`,
in order. -/
def serializeParams (ps : List (String × JVal)) : String :=
  String.intercalate "&" (ps.map (fun kv => formEncode kv.1 ++ "=" ++ formEncode (paramStr kv.2)))

/-- `getPath(url, data)` from src/utils.ts: keep exactly the string-valued
entries of `data` (`Object.entries(data).filter(([, value]) => typeof value
=== 'string')`, then `Object.fromEntries` — the identity on an entry list
with unique keys) and append their query string to the url. -/
def getPath (url : String) (data : List (String × JVal)) : String :=
  let params := data.filter (fun kv => kv.2.isString)
  url ++ "?" ++ serializeParams params

/-- The JavaScript object literal `{ ...data, k: v }` on an entry list with
unique keys: if `k` is already a key its value is updated in place (property
order keeps the original slot), otherwise the entry is appended. -/
def objectSpreadSet (data : List (String × JVal)) (k : String) (v : JVal) :
    List (String × JVal) :=
  if data.any (fun kv => kv.1 = k) then
    data.map (fun kv => if kv.1 = k then (k, v) else kv)
  else data ++ [(k, v)]

/-- The popup path built by `signTransaction(roomId, data)`:
`getPath('/transaction/send', { ...data, roomId })`. -/
def signTransactionPath (roomId : String) (data : List (String × JVal)) : String :=
  getPath "/transaction/send" (objectSpreadSet data "roomId" (.jstr roomId))

/-- The popup path built by `createWallet(roomId)`: `getPath('/auth', { roomId })`. -/
def createWalletPath (roomId : String) : String :=
  getPath "/auth" [("roomId", .jstr roomId)]

/-- Server script taken from a finite list of replies (requests beyond the
list fail at the network level). -/
def scriptOfList (rs : List Reply) : Nat → Reply :=
  fun n => rs.getD n .networkError

/-- A session state with an empty dispatch trace over a given script. -/
def mkSession (scr : Nat → Reply) (ints : List (Option JVal)) (hnds : List Nat)
    (u rt : JVal) (evs : List (String × JVal)) : Web3State :=
  { script := scr, trace := [], interceptors := ints, logoutHandlers := hnds,
    user := u, userRefreshToken := rt, events := evs }

/-- A freshly constructed client (empty session) over a given script. -/
def freshState (scr : Nat → Reply) : Web3State :=
  mkSession scr [] [] .jundefined .jundefined []

/-- C1 scenario: a logged-in session whose logout endpoint replies HTTP 500. -/
def c1State : Web3State :=
  mkSession (fun _ => .httpError 500 .jundefined) [some (.jstr "a")] [0]
    (.jobj [("id", .jnum 1), ("wallet", .jobj [("eth_address", .jstr "0x")])])
    (.jstr "r") []

/-- C2 scenario script: every `/data` request gets a 401, every refresh gets
a fresh token, every identity fetch succeeds. -/
def c2Script : Nat → Reply := fun n =>
  match n % 3 with
  | 0 => .httpError 401 (.jobj [("message", .jstr "unauthorized")])
  | 1 => .success (.jobj [("token", .jstr "t"), ("validUntil", .jstr "2030")])
  | _ => .success (.jobj [("id", .jnum 1)])

/-- C2 scenario: a session holding a refresh credential over `c2Script`. -/
def c2State : Web3State :=
  mkSession c2Script [] [] .jundefined (.jstr "r") []

/-- C5 scenario: a session with no stored refresh credential (over a server
that would answer any request successfully). -/
def c5State : Web3State :=
  mkSession (fun _ => .success (.jobj [])) [] [] .jundefined .jundefined []

/-- C5 comparison scenario: a refresh credential is stored but the refresh
endpoint replies HTTP 500. -/
def c5FailState : Web3State :=
  mkSession (fun _ => .httpError 500 .jundefined) [] [] .jundefined (.jstr "r") []

/-- C6 scenario script: two Discord logins handing out access tokens `t1`
then `t2`, then a plain data request. -/
def c6Script : Nat → Reply := fun n =>
  match n with
  | 0 => .success (.jobj [("access", .jobj [("token", .jstr "t1")]),
                          ("refresh", .jobj [("token", .jstr "r1")])])
  | 1 => .success (.jobj [("access", .jobj [("token", .jstr "t2")]),
                          ("refresh", .jobj [("token", .jstr "r2")])])
  | _ => .success (.jobj [("hello", .jstr "world")])

/-- Discord credentials payload used in the login scenarios. -/
def c6Cred : JVal := .jobj [("code", .jstr "c")]

/-- C6 scenario: first login. -/
def c6Step1 : Web3State × Except JsError Unit :=
  authWithDiscord 1 (freshState c6Script) c6Cred

/-- C6 scenario: second login, without any intervening logout. -/
def c6Step2 : Web3State × Except JsError Unit :=
  authWithDiscord 1 c6Step1.1 c6Cred

/-- C6 scenario: a request sent after both logins. -/
def c6Final : Web3State × Except JsError Outcome :=
  clientRequest 1 c6Step2.1 (mkGet "/data")

/-- C7 scenario: a session with a stored user and refresh credential whose
identity endpoint fails at the network level. -/
def c7State : Web3State :=
  mkSession (fun _ => .networkError) [] [] (.jobj [("id", .jnum 7)]) (.jstr "r") []

/-- Projections of `runAccessTokenInterceptor` that never change. -/
theorem runAccessTokenInterceptor_url (t : JVal) (r : Request) :
    (runAccessTokenInterceptor t r).url = r.url := by
  unfold runAccessTokenInterceptor
  split <;> rfl

/-- Request interceptors only touch headers: the url is preserved. -/
theorem applyReqInterceptors_url (ints : List (Option JVal)) (r : Request) :
    (applyReqInterceptors ints r).url = r.url := by
  unfold applyReqInterceptors
  generalize ints.reverse = l
  induction l generalizing r with
  | nil => rfl
  | cons a l ih =>
      cases a with
      | none => simpa using ih r
      | some t =>
          simpa [runAccessTokenInterceptor_url] using ih (runAccessTokenInterceptor t r)

/-- C1: the claim says a failed remote logout call makes `logout()` fail with
`LogoutFailedError`, leaves the stored user and refresh credential unchanged
and emits nothing. On the code, the response interceptor returns the error
from its rejection handler, so the awaited logout call fulfils even when the
endpoint replies HTTP 500: `logout()` resolves, clears both fields, flips
`isLoggedIn` to false and emits one `logout` event. -/
theorem c1_logout_remote_failure_still_clears :
    c1State.script 0 = .httpError 500 .jundefined ∧
    isLoggedIn c1State = true ∧
    (logout 2 c1State).2 = .ok () ∧
    (logout 2 c1State).1.user = .jundefined ∧
    (logout 2 c1State).1.userRefreshToken = .jundefined ∧
    isLoggedIn (logout 2 c1State).1 = false ∧
    (logout 2 c1State).1.events = [("logout", JVal.jnull)] :=
  ⟨rfl, rfl, rfl, rfl, rfl, rfl, rfl⟩

/-- C2: the claim says a 401 with a stored refresh credential triggers at
most one refresh-and-retry, and a retried 401 is not retried again. On the
code the retried request goes through the same interceptor, so against a
server that answers every `/data` request with 401 while refreshes succeed,
the `/data` request is dispatched three times within fuel 3 and four times
within fuel 4: one more retry per available refresh cycle, without bound. -/
theorem c2_retry_is_unbounded :
    ((clientRequest 3 c2State (mkGet "/data")).1.trace.filter
        (fun r => r.url = "/data")).length = 3 ∧
    ((clientRequest 4 c2State (mkGet "/data")).1.trace.filter
        (fun r => r.url = "/data")).length = 4 :=
  ⟨rfl, rfl⟩

/-- C6: the claim says a request after a new login carries the newest access
credential, never a stale one. On the code both logins succeed and install
their interceptors (`t1` then `t2`), but axios runs request interceptors in
reverse registration order, so the earliest interceptor writes the header
last: the follow-up request carries exactly one authorization header whose
value is the stale `Bearer t1`, not `Bearer t2`. -/
theorem c6_stale_token_wins :
    c6Step1.2 = .ok () ∧
    c6Step2.2 = .ok () ∧
    c6Step2.1.interceptors = [some (.jstr "t1"), some (.jstr "t2")] ∧
    c6Final.1.trace.map Request.headers =
      [[], [("Authorization", "Bearer t1")], [("Authorization", "Bearer t1")]] :=
  ⟨rfl, rfl, rfl, rfl⟩

/-- C7: the claim says a failing identity endpoint makes `fetchUser()` reject
with the collaborator's error. On the code the response interceptor fulfils
the failed GET with the error object, whose missing `data` field destructures
to `undefined`: `fetchUser()` resolves with `undefined` and overwrites the
stored user with `undefined` (a previously logged-in session even stops
reporting `isLoggedIn`). -/
theorem c7_fetchUser_swallows_failure :
    (fetchUser 2 c7State).2 = .ok .jundefined ∧
    (fetchUser 2 c7State).1.user = .jundefined ∧
    c7State.user = .jobj [("id", .jnum 7)] ∧
    (fetchUser 2 c7State).1.trace.map Request.url = ["/api/users/me"] ∧
    isLoggedIn c7State = true ∧
    isLoggedIn (fetchUser 2 c7State).1 = false :=
  ⟨rfl, rfl, rfl, rfl, rfl, rfl⟩

/-- C5 counterexample: the claim says a refresh without a stored refresh
credential fails with the distinct missing-credential error
(`NoRefreshTokenError`). On the code the internal throw of 'Refresh token
not found' is caught by `refreshToken`'s catch-all and rethrown as 'Refresh
token failed' — the very same error value a failing refresh endpoint
produces — so no distinct missing-credential error ever reaches the caller. -/
theorem c5_no_distinct_missing_token_error :
    (refreshToken 3 c5State).2 = .error (.errMsg "Refresh token failed") ∧
    (refreshToken 3 c5FailState).2 = .error (.errMsg "Refresh token failed") ∧
    JsError.errMsg "Refresh token failed" ≠ JsError.errMsg "Refresh token not found" :=
  ⟨rfl, rfl, by decide⟩

/-- C5 amended: with no stored refresh credential, `refreshToken()` fails
with the single normalized refresh-failure error ('Refresh token failed' —
the internal missing-token throw is swallowed by the catch-all), sends no
request, and leaves the whole state untouched. -/
theorem c5_missing_token_fails_normalized (fuel : Nat) (s : Web3State)
    (h : s.userRefreshToken.truthy = false) :
    refreshToken fuel s = (s, .error (.errMsg "Refresh token failed")) := by
  simp [refreshToken, refreshTokenWith, refreshTokenBodyWith, h]

/-- C5 witness: the amended theorem applied to the concrete credential-less
session; in particular the dispatch trace stays empty. -/
theorem c5_missing_token_fails_normalized_witness :
    refreshToken 3 c5State = (c5State, .error (.errMsg "Refresh token failed")) ∧
    (refreshToken 3 c5State).1.trace = [] :=
  ⟨c5_missing_token_fails_normalized 3 c5State rfl,
   by rw [c5_missing_token_fails_normalized 3 c5State rfl]; rfl⟩

/-- Dispatching a request never touches the event trace. -/
theorem dispatch_events (s : Web3State) (req : Request) :
    (dispatch s req).1.events = s.events := by
  unfold dispatch
  cases hs : s.script s.trace.length <;> simp [hs]

/-- `fetchUser` never touches the event trace (given its request function
does not). -/
theorem fetchUserWith_events
    (cr : Web3State → Request → Web3State × Except JsError Outcome)
    (hcr : ∀ s r, ((cr s r).1).events = s.events) (s : Web3State) :
    ((fetchUserWith cr s).1).events = s.events := by
  unfold fetchUserWith
  rcases h : cr s (mkGet "/api/users/me") with ⟨s1, res⟩
  have h1 : s1.events = s.events := by
    have h' := hcr s (mkGet "/api/users/me")
    rw [h] at h'
    exact h'
  cases res <;> exact h1

/-- The body of `refreshToken` never touches the event trace (given its
request function does not). -/
theorem refreshTokenBodyWith_events
    (cr : Web3State → Request → Web3State × Except JsError Outcome)
    (hcr : ∀ s r, ((cr s r).1).events = s.events) (s : Web3State) :
    ((refreshTokenBodyWith cr s).1).events = s.events := by
  unfold refreshTokenBodyWith
  by_cases htr : s.userRefreshToken.truthy = true
  · rw [if_pos htr]
    rcases h : cr s (mkPost "/api/auth/refresh"
        [("Authorization", "Bearer " ++ s.userRefreshToken.jsToString)] .jundefined) with ⟨s1, res⟩
    have h1 : s1.events = s.events := by
      have h' := hcr s (mkPost "/api/auth/refresh"
        [("Authorization", "Bearer " ++ s.userRefreshToken.jsToString)] .jundefined)
      rw [h] at h'
      exact h'
    cases res with
    | error e => exact h1
    | ok out =>
        rcases hg : out.dataField.get "token" with e | tok
        · simp only [hg]
          exact h1
        · rcases hf : fetchUserWith cr (useCredentials s1 tok) with ⟨s3, res3⟩
          have h2 : s3.events = s1.events := by
            have h' := fetchUserWith_events cr hcr (useCredentials s1 tok)
            rw [hf] at h'
            exact h'
          cases res3 <;> (simp only [hg, hf]; exact h2.trans h1)
  · rw [if_neg htr]

/-- `refreshToken` never touches the event trace (given its request function
does not). -/
theorem refreshTokenWith_events
    (cr : Web3State → Request → Web3State × Except JsError Outcome)
    (hcr : ∀ s r, ((cr s r).1).events = s.events) (s : Web3State) :
    ((refreshTokenWith cr s).1).events = s.events := by
  unfold refreshTokenWith
  rcases h : refreshTokenBodyWith cr s with ⟨s1, res⟩
  have h1 : s1.events = s.events := by
    have h' := refreshTokenBodyWith_events cr hcr s
    rw [h] at h'
    exact h'
  cases res <;> exact h1

/-- No request through the client pipeline ever touches the event trace. -/
theorem clientRequest_events (fuel : Nat) :
    ∀ (s : Web3State) (req : Request), ((clientRequest fuel s req).1).events = s.events := by
  induction fuel with
  | zero => intro s req; rfl
  | succ f ih =>
      intro s req
      rcases hd : dispatch s (applyReqInterceptors s.interceptors req) with ⟨s1, dr⟩
      have h1 : s1.events = s.events := by
        have h' := dispatch_events s (applyReqInterceptors s.interceptors req)
        rw [hd] at h'
        exact h'
      cases dr with
      | fulfilled r =>
          simp only [clientRequest, hd]
          exact h1
      | rejected e =>
          cases hc : (is401 e && s1.userRefreshToken.truthy) with
          | false =>
              simp [clientRequest, hd, hc]
              exact h1
          | true =>
              rcases hr : refreshTokenWith (fun s' r' => clientRequest f s' r') s1 with ⟨s2, res2⟩
              have h2 : s2.events = s1.events := by
                have h' := refreshTokenWith_events (fun s' r' => clientRequest f s' r')
                  (fun s' r' => ih s' r') s1
                rw [hr] at h'
                exact h'
              cases res2 with
              | error e2 =>
                  simp [clientRequest, hd, hc, hr]
                  exact h2.trans h1
              | ok v =>
                  rcases hc2 : clientRequest f s2 e.config with ⟨s3, res3⟩
                  have h3 : s3.events = s2.events := by
                    have h' := ih s2 e.config
                    rw [hc2] at h'
                    exact h'
                  cases res3 <;> (simp [clientRequest, hd, hc, hr, hc2]; exact (h3.trans h2).trans h1)

/-- C9 counterexample: the claim says a successful login publishes a `login`
event. On the code `authWithDiscord` succeeds (storing the refresh
credential) yet the event trace stays empty: no `login` event is ever
published, so no subscriber of the `login` kind can observe one. -/
theorem c9_no_login_event_on_successful_auth :
    (authWithDiscord 1 (freshState c6Script) c6Cred).2 = .ok () ∧
    (authWithDiscord 1 (freshState c6Script) c6Cred).1.userRefreshToken = .jstr "r1" ∧
    (authWithDiscord 1 (freshState c6Script) c6Cred).1.events = [] :=
  ⟨rfl, rfl, rfl⟩

/-- C9 amended: `authWithDiscord` (successful or not) publishes no event at
all — in particular a successful login emits no `login` event; the `login`
event kind is declared but never published by the session manager. -/
theorem c9_auth_publishes_no_event (fuel : Nat) (s : Web3State) (credentials : JVal) :
    ((authWithDiscord fuel s credentials).1).events = s.events := by
  unfold authWithDiscord
  rcases h : clientRequest fuel s (mkPost "/api/auth/discord" [] credentials) with ⟨s1, res⟩
  have h1 : s1.events = s.events := by
    have h' := clientRequest_events fuel s (mkPost "/api/auth/discord" [] credentials)
    rw [h] at h'
    exact h'
  cases res with
  | error e => exact h1
  | ok out =>
      rcases hg : out.dataField.get "access" with e | acc
      · simp only [hg]
        exact h1
      · rcases hg2 : acc.get "token" with e | tok
        · simp only [hg, hg2]
          exact h1
        · rcases hg3 : out.dataField.get "refresh" with e | rfr
          · simp only [hg, hg2, hg3]
            exact h1
          · rcases hg4 : rfr.get "token" with e | rtok
            · simp only [hg, hg2, hg3, hg4]
              exact h1
            · simp only [hg, hg2, hg3, hg4]
              exact h1

/-- C3: a request answered 401 while a refresh credential is stored, whose
triggered refresh cycle fails (the refresh endpoint fails with a network
error or a non-401 HTTP error), fulfils the caller's promise — no exception
is thrown — with the original 401 error object unchanged; the original
request is not retried (the trace holds only the original dispatch and the
failed refresh attempt) and the stored user, refresh credential, events and
interceptors are untouched. -/
theorem c3_failed_refresh_returns_original (fuel : Nat) (req : Request)
    (d0 : JVal) (rpl1 : Reply) (ints : List (Option JVal)) (hnds : List Nat)
    (u0 rt : JVal) (ev0 : List (String × JVal))
    (hrt : rt.truthy = true)
    (hfail : rpl1 = Reply.networkError ∨ ∃ st d1, st ≠ 401 ∧ rpl1 = Reply.httpError st d1) :
    (clientRequest (fuel + 2) (mkSession (scriptOfList [.httpError 401 d0, rpl1]) ints hnds u0 rt ev0) req).2 =
      .ok (.errObj ⟨some ⟨401, d0⟩, applyReqInterceptors ints req⟩) ∧
    ((clientRequest (fuel + 2) (mkSession (scriptOfList [.httpError 401 d0, rpl1]) ints hnds u0 rt ev0) req).1.trace.map Request.url) =
      [req.url, "/api/auth/refresh"] ∧
    (clientRequest (fuel + 2) (mkSession (scriptOfList [.httpError 401 d0, rpl1]) ints hnds u0 rt ev0) req).1.user = u0 ∧
    (clientRequest (fuel + 2) (mkSession (scriptOfList [.httpError 401 d0, rpl1]) ints hnds u0 rt ev0) req).1.userRefreshToken = rt ∧
    (clientRequest (fuel + 2) (mkSession (scriptOfList [.httpError 401 d0, rpl1]) ints hnds u0 rt ev0) req).1.events = ev0 ∧
    (clientRequest (fuel + 2) (mkSession (scriptOfList [.httpError 401 d0, rpl1]) ints hnds u0 rt ev0) req).1.interceptors = ints := by
  rcases hfail with hnet | ⟨st, d1, hst, hhttp⟩
  · subst hnet
    refine ⟨?_, ?_, ?_, ?_, ?_, ?_⟩ <;>
      simp [clientRequest, dispatch, mkSession, scriptOfList, refreshTokenWith,
        refreshTokenBodyWith, fetchUserWith, is401, hrt, Outcome.dataField, JVal.get,
        mkPost, mkGet, applyReqInterceptors_url, useCredentials]
  · subst hhttp
    have hb : (st == 401) = false := by
      simp [hst]
    refine ⟨?_, ?_, ?_, ?_, ?_, ?_⟩ <;>
      simp [clientRequest, dispatch, mkSession, scriptOfList, refreshTokenWith,
        refreshTokenBodyWith, fetchUserWith, is401, hrt, hb, Outcome.dataField, JVal.get,
        mkPost, mkGet, applyReqInterceptors_url, useCredentials]

/-- C3 witness: a GET `/data` answered 401 whose refresh attempt is answered
HTTP 500 resolves with the original 401 error object; nothing is retried
and no session state changes. -/
theorem c3_failed_refresh_returns_original_witness :
    (clientRequest 2 (mkSession (scriptOfList [.httpError 401 (.jobj [("message", .jstr "unauthorized")]), .httpError 500 .jundefined]) [] [] (.jobj [("id", .jnum 1)]) (.jstr "r") []) (mkGet "/data")).2 =
      .ok (.errObj ⟨some ⟨401, .jobj [("message", .jstr "unauthorized")]⟩, mkGet "/data"⟩) ∧
    ((clientRequest 2 (mkSession (scriptOfList [.httpError 401 (.jobj [("message", .jstr "unauthorized")]), .httpError 500 .jundefined]) [] [] (.jobj [("id", .jnum 1)]) (.jstr "r") []) (mkGet "/data")).1.trace.map Request.url) =
      ["/data", "/api/auth/refresh"] ∧
    (clientRequest 2 (mkSession (scriptOfList [.httpError 401 (.jobj [("message", .jstr "unauthorized")]), .httpError 500 .jundefined]) [] [] (.jobj [("id", .jnum 1)]) (.jstr "r") []) (mkGet "/data")).1.user = .jobj [("id", .jnum 1)] ∧
    (clientRequest 2 (mkSession (scriptOfList [.httpError 401 (.jobj [("message", .jstr "unauthorized")]), .httpError 500 .jundefined]) [] [] (.jobj [("id", .jnum 1)]) (.jstr "r") []) (mkGet "/data")).1.userRefreshToken = .jstr "r" ∧
    (clientRequest 2 (mkSession (scriptOfList [.httpError 401 (.jobj [("message", .jstr "unauthorized")]), .httpError 500 .jundefined]) [] [] (.jobj [("id", .jnum 1)]) (.jstr "r") []) (mkGet "/data")).1.events = [] ∧
    (clientRequest 2 (mkSession (scriptOfList [.httpError 401 (.jobj [("message", .jstr "unauthorized")]), .httpError 500 .jundefined]) [] [] (.jobj [("id", .jnum 1)]) (.jstr "r") []) (mkGet "/data")).1.interceptors = [] :=
  c3_failed_refresh_returns_original 0 (mkGet "/data")
    (.jobj [("message", .jstr "unauthorized")]) (.httpError 500 .jundefined) [] []
    (.jobj [("id", .jnum 1)]) (.jstr "r") [] (by decide)
    (Or.inr ⟨500, .jundefined, by decide, rfl⟩)

/-- C4: a `refreshToken()` call with a stored refresh credential, whose
refresh endpoint succeeds with a record carrying a token, re-fetches the
identity (`/api/users/me` is dispatched after `/api/auth/refresh`, before
the call returns), stores exactly the fetched identity as the session user,
returns the refresh endpoint's record as its value, and keeps the refresh
credential. -/
theorem c4_refresh_refetches_user (fuel : Nat) (d0 tok u : JVal)
    (ints : List (Option JVal)) (hnds : List Nat) (u0 rt : JVal) (ev0 : List (String × JVal))
    (hrt : rt.truthy = true) (htok : d0.get "token" = .ok tok) :
    (refreshToken (fuel + 1) (mkSession (scriptOfList [.success d0, .success u]) ints hnds u0 rt ev0)).2 = .ok d0 ∧
    (refreshToken (fuel + 1) (mkSession (scriptOfList [.success d0, .success u]) ints hnds u0 rt ev0)).1.user = u ∧
    ((refreshToken (fuel + 1) (mkSession (scriptOfList [.success d0, .success u]) ints hnds u0 rt ev0)).1.trace.map Request.url) =
      ["/api/auth/refresh", "/api/users/me"] ∧
    (refreshToken (fuel + 1) (mkSession (scriptOfList [.success d0, .success u]) ints hnds u0 rt ev0)).1.userRefreshToken = rt := by
  refine ⟨?_, ?_, ?_, ?_⟩ <;>
    simp [refreshToken, refreshTokenWith, refreshTokenBodyWith, fetchUserWith, clientRequest,
      dispatch, mkSession, scriptOfList, hrt, htok, Outcome.dataField, mkPost, mkGet,
      applyReqInterceptors_url, useCredentials]

/-- C4 witness: a concrete successful refresh returns the new token record,
stores the freshly fetched user, and the trace shows the identity re-fetch. -/
theorem c4_refresh_refetches_user_witness :
    (refreshToken 1 (mkSession (scriptOfList [.success (.jobj [("token", .jstr "tNew"), ("validUntil", .jstr "2030")]), .success (.jobj [("id", .jnum 9)])]) [] [] .jundefined (.jstr "r") [])).2 =
      .ok (.jobj [("token", .jstr "tNew"), ("validUntil", .jstr "2030")]) ∧
    (refreshToken 1 (mkSession (scriptOfList [.success (.jobj [("token", .jstr "tNew"), ("validUntil", .jstr "2030")]), .success (.jobj [("id", .jnum 9)])]) [] [] .jundefined (.jstr "r") [])).1.user = .jobj [("id", .jnum 9)] ∧
    ((refreshToken 1 (mkSession (scriptOfList [.success (.jobj [("token", .jstr "tNew"), ("validUntil", .jstr "2030")]), .success (.jobj [("id", .jnum 9)])]) [] [] .jundefined (.jstr "r") [])).1.trace.map Request.url) =
      ["/api/auth/refresh", "/api/users/me"] ∧
    (refreshToken 1 (mkSession (scriptOfList [.success (.jobj [("token", .jstr "tNew"), ("validUntil", .jstr "2030")]), .success (.jobj [("id", .jnum 9)])]) [] [] .jundefined (.jstr "r") [])).1.userRefreshToken = .jstr "r" :=
  c4_refresh_refetches_user 0 (.jobj [("token", .jstr "tNew"), ("validUntil", .jstr "2030")])
    (.jstr "tNew") (.jobj [("id", .jnum 9)]) [] [] .jundefined (.jstr "r") [] (by decide) rfl

/-- C8: for a pending createWallet/signTransaction invocation, a message
whose origin exactly equals the configured base URL resolves the pending
promise; if that honored message's payload is the literal string 'close'
and a popup handle exists, the popup is additionally closed; an honored
message with any other payload resolves without touching the popup; and a
message from any other origin leaves the broker state entirely unchanged
(the promise stays pending). -/
theorem c8_trusted_origin_message_handling (baseURL : String) (popupPresent : Bool)
    (st : BrokerState) (ev : MessageEvent) :
    (ev.origin = baseURL →
       (handleWalletMessage baseURL popupPresent st ev).resolved = true) ∧
    (ev.origin = baseURL → popupPresent = true → ev.data = .jstr "close" →
       (handleWalletMessage baseURL popupPresent st ev).popupClosed = true) ∧
    (ev.origin = baseURL → isCloseSignal ev.data = false →
       (handleWalletMessage baseURL popupPresent st ev).popupClosed = st.popupClosed) ∧
    (ev.origin ≠ baseURL → handleWalletMessage baseURL popupPresent st ev = st) := by
  refine ⟨?_, ?_, ?_, ?_⟩
  · intro h
    simp [handleWalletMessage, if_pos h]
  · intro h hp hd
    subst hp
    simp [handleWalletMessage, if_pos h, hd, isCloseSignal]
  · intro h hd
    simp [handleWalletMessage, if_pos h, hd]
  · intro h
    simp [handleWalletMessage, if_neg h]

/-- C8 witness: concrete events — a trusted-origin 'close' message resolves
and closes, a trusted-origin 'done' message resolves without closing, and a
foreign-origin message changes nothing. -/
theorem c8_trusted_origin_message_handling_witness :
    (handleWalletMessage "https://app.tookey.io" true ⟨false, false⟩
        ⟨"https://app.tookey.io", .jstr "close"⟩).resolved = true ∧
    (handleWalletMessage "https://app.tookey.io" true ⟨false, false⟩
        ⟨"https://app.tookey.io", .jstr "close"⟩).popupClosed = true ∧
    (handleWalletMessage "https://app.tookey.io" true ⟨false, false⟩
        ⟨"https://app.tookey.io", .jstr "done"⟩).popupClosed = false ∧
    handleWalletMessage "https://app.tookey.io" true ⟨false, false⟩
        ⟨"https://evil.example", .jstr "close"⟩ = ⟨false, false⟩ :=
  ⟨(c8_trusted_origin_message_handling "https://app.tookey.io" true ⟨false, false⟩
      ⟨"https://app.tookey.io", .jstr "close"⟩).1 rfl,
   (c8_trusted_origin_message_handling "https://app.tookey.io" true ⟨false, false⟩
      ⟨"https://app.tookey.io", .jstr "close"⟩).2.1 rfl rfl rfl,
   (c8_trusted_origin_message_handling "https://app.tookey.io" true ⟨false, false⟩
      ⟨"https://app.tookey.io", .jstr "done"⟩).2.2.1 rfl (by decide),
   (c8_trusted_origin_message_handling "https://app.tookey.io" true ⟨false, false⟩
      ⟨"https://evil.example", .jstr "close"⟩).2.2.2 (by decide)⟩

/-- C10: the query string of the popup URL holds exactly the string-valued
entries of the payload mapping — non-string values are dropped by
`getPath`'s filter — plus the `roomId` entry (stated for a payload that does
not itself use the key `roomId`, which `{ ...data, roomId }` would
override); `signTransaction` and `createWallet` are the two instances. -/
theorem c10_query_is_string_entries_plus_roomId (url roomId : String)
    (data : List (String × JVal)) (h : "roomId" ∉ data.map Prod.fst) :
    getPath url (objectSpreadSet data "roomId" (.jstr roomId)) =
      url ++ "?" ++ serializeParams ((data.filter fun kv => kv.2.isString) ++ [("roomId", JVal.jstr roomId)]) ∧
    signTransactionPath roomId data =
      "/transaction/send" ++ "?" ++ serializeParams ((data.filter fun kv => kv.2.isString) ++ [("roomId", JVal.jstr roomId)]) ∧
    createWalletPath roomId = "/auth" ++ "?" ++ serializeParams [("roomId", JVal.jstr roomId)] := by
  have hany : data.any (fun kv => kv.1 = "roomId") = false := by
    simp only [List.any_eq_false, decide_eq_true_eq]
    intro kv hkv heq
    apply h
    rw [← heq]
    exact List.mem_map_of_mem Prod.fst hkv
  have hspread : objectSpreadSet data "roomId" (.jstr roomId) = data ++ [("roomId", .jstr roomId)] := by
    unfold objectSpreadSet
    rw [hany]
    simp
  have hmain : ∀ u : String, getPath u (data ++ [("roomId", .jstr roomId)]) =
      u ++ "?" ++ serializeParams ((data.filter fun kv => kv.2.isString) ++ [("roomId", JVal.jstr roomId)]) := by
    intro u
    simp [getPath, List.filter_append, JVal.isString]
  refine ⟨?_, ?_, ?_⟩
  · rw [hspread]
    exact hmain url
  · unfold signTransactionPath
    rw [hspread]
    exact hmain "/transaction/send"
  · simp [createWalletPath, getPath, JVal.isString]

/-- C10 witness: a transaction payload with one string field and one numeric
field yields a query with exactly the string field plus `roomId` (the
numeric `value` entry is dropped), and the wallet-creation path carries just
`roomId`. -/
theorem c10_query_is_string_entries_plus_roomId_witness :
    signTransactionPath "r1" [("to", .jstr "0xabc"), ("value", .jnum 5)] =
      "/transaction/send?to=0xabc&roomId=r1" ∧
    createWalletPath "r2" = "/auth?roomId=r2" := by
  constructor
  · rw [(c10_query_is_string_entries_plus_roomId "/transaction/send" "r1"
      [("to", .jstr "0xabc"), ("value", .jnum 5)] (by decide)).2.1]
    rfl
  · rw [(c10_query_is_string_entries_plus_roomId "/auth" "r2" [] (by decide)).2.2]
    rfl
